import Mathlib

/-!
Verification of the storage-cli bulk transfer and management engine.

Each definition below is a shallow embedding of a function of the Go
source (the five backend client packages and the command dispatcher), or,
where the spec describes a component that has no counterpart in the
source, a model built from the spec and marked as such.  Machine integers
(int64) are modelled as `Int`; fallible Go functions return `Except` or
`Option`; the nondeterministic interleaving of worker goroutines is
determinized by collecting results in listing order (the properties we
state only concern the multiset of collected results, which is
interleaving-independent).
-/

namespace StorageCli

/-! ## ChunkPlanner (`multipartCopy` of the S3 client,
`src/s3/client/s3middleware/http_logger.go`)

The spec describes the part computation as a `ChunkPlanner` component; in
the source it is hand-written inside `multipartCopy` of the S3 client
revision bundled in `src/s3/client/s3middleware/http_logger.go`
(the `package client` document): `numParts` by integer ceiling division
at line 426 and the per-part byte ranges in the loop at lines 461-467. -/

namespace Planner

/-- A part of a part plan: 1-based part number, first and last byte
(inclusive), as built by the `multipartCopy` loop (`partNumber`,
`start`, `end`). -/
structure Part where
  index : Nat
  startByte : Int
  endByte : Int
deriving Repr, DecidableEq

/-- Error for invalid plan arguments. -/
inductive PlanError where
  | invalidSize
deriving Repr, DecidableEq

/-- `numParts` of `multipartCopy` (line 426):
`numParts := int((objectSize + copyPartSize - 1) / copyPartSize)` —
integer ceiling division, avoiding floating point. -/
def numParts (objectSize copyPartSize : Int) : Int :=
  (objectSize + copyPartSize - 1) / copyPartSize

/-- The part plan built by the `multipartCopy` loop (lines 461-467): for
each `i < numParts`, `partNumber := i + 1`, `start := i * copyPartSize`,
`end := start + copyPartSize - 1`, clamped to `objectSize - 1` when it
reaches past the object (`start` is inlined in the clamp below). -/
def planParts (objectSize copyPartSize : Int) : List Part :=
  (List.range (numParts objectSize copyPartSize).toNat).map (fun i =>
    { index := i + 1
      startByte := (i : Int) * copyPartSize
      endByte :=
        if (i : Int) * copyPartSize + copyPartSize - 1 ≥ objectSize
        then objectSize - 1
        else (i : Int) * copyPartSize + copyPartSize - 1 })

/-- The `ChunkPlanner.plan` interface of the spec over the part
computation of the source: the plan itself is `planParts`, translated
from `multipartCopy`; the `InvalidSizeError` guard is the contract the
spec states for arguments with which the source never invokes the
planning (`Copy` calls `multipartCopy` only with a nonnegative S3
content length and a positive part size, where `plan` is
`.ok (planParts ..)`). -/
def plan (sourceSize partSize : Int) : Except PlanError (List Part) :=
  if sourceSize < 0 ∨ partSize ≤ 0 then
    .error .invalidSize
  else
    .ok (planParts sourceSize partSize)

end Planner

/-! ## Azure blobstore client (`src/azurebs/client`) -/

namespace Az

/-- Result of the Azure `StorageClient.Upload` call as seen by the caller:
either a failure, or a success whose response carries the checksum the
backend computed for the stored blob (the Azure SDK reports it as
`ContentMD5`; bytes are modelled as `Nat`). -/
inductive UploadResult where
  | failure (msg : String)
  | success (contentMD5 : List Nat)
deriving Repr, DecidableEq

/-- Outcome of a `Put`, together with the delete calls the client issued
against the destination key (observable cleanup). -/
structure PutTrace where
  result : Except String Unit
  deleteCalls : List String
deriving Repr

/-- `AzBlobstore.Put` from `src/azurebs/client/client.go` (lines 23-55):
the source opens the file and forwards it to `storageClient.Upload`; the
local MD5 computation, the comparison against the checksum of the upload
response and the cleanup delete are all commented out in the source, so
the backend-reported checksum is ignored, no delete is ever issued, and a
successful upload returns success unconditionally. -/
def azPut (dest : String) (upload : UploadResult) : PutTrace :=
  match upload with
  | .failure msg => { result := .error ("upload failure: " ++ msg), deleteCalls := [] }
  | .success _ => { result := .ok (), deleteCalls := [] }

/-- Lower-case hex digit. -/
def hexDigit (n : Nat) : Char :=
  if n < 10 then Char.ofNat (48 + n) else Char.ofNat (87 + n)

/-- Two-digit lower-case hex rendering of one byte, as Go `%x` prints it. -/
def byteHex (b : Nat) : String :=
  String.mk [hexDigit (b / 16 % 16), hexDigit (b % 16)]

/-- Go `%x` rendering of a byte slice. -/
def md5Hex (bs : List Nat) : String :=
  String.join (bs.map byteHex)

/-- `AzBlobstore.Put` as it appears in the other revision of the same file
shipped in the repository (`src/unnamed/part_010`, lines 22-52): the local
source MD5 is compared with the `ContentMD5` of the upload response; on
mismatch a best-effort delete of the destination is issued (its failure
`deleteOutcome` is logged, not propagated) and an MD5-mismatch error
naming both checksums in hex is returned. -/
def azPutVerifying (sourceMD5 : List Nat) (dest : String) (upload : UploadResult)
    (deleteOutcome : Except String Unit) : PutTrace :=
  match upload with
  | .failure msg => { result := .error ("upload failure: " ++ msg), deleteCalls := [] }
  | .success md5 =>
    if sourceMD5 = md5 then
      { result := .ok (), deleteCalls := [] }
    else
      match deleteOutcome with
      | _ =>
        { result := .error ("MD5 mismatch: expected " ++ md5Hex sourceMD5 ++ ", got " ++ md5Hex md5)
          deleteCalls := [dest] }

end Az

/-! ## GCS blobstore client (`src/gcs/client/client.go`) -/

namespace Gcs

/-- `retryAttempts` from `src/gcs/client/client.go`. -/
def retryAttempts : Nat := 3

/-- Trace of `GCSBlobstore.Put`: the outcome, how many `putResumable`
calls were made, the seconds slept between attempts, and how many
seek-resets of the source were performed. -/
structure PutTrace where
  result : Except String Unit
  attempts : Nat
  sleeps : List Nat
  seeks : Nat
deriving Repr

/-- The terminal message built after the retry loop of `GCSBlobstore.Put`:
`upload failed for %s after %d attempts: %v` with `%d` = `retryAttempts`
and `%v` = the list of all collected causes. -/
def gcsFailMsg (dest : String) (errs : List String) : String :=
  "upload failed for " ++ dest ++ " after " ++ toString retryAttempts
    ++ " attempts: " ++ toString errs

/-- The retry loop of `GCSBlobstore.Put` (lines 225-240 of
`src/gcs/client/client.go`): `for i := range retryAttempts`, call
`putResumable` (outcome of the `i`-th call given by `putOutcome i`,
`none` = success); on success return nil; on failure collect the cause,
seek the source back to its original position, and iterate; after the
loop return the terminal message.  There is no sleep anywhere in the
loop.  `remaining` is the number of loop iterations left
(`retryAttempts - i`); seeks equal the number of failures observed. -/
def gcsPutAux (putOutcome : Nat → Option String) (dest : String) :
    Nat → Nat → List String → PutTrace
  | _, 0, errs =>
    { result := .error (gcsFailMsg dest errs)
      attempts := errs.length
      sleeps := []
      seeks := errs.length }
  | i, remaining + 1, errs =>
    match putOutcome i with
    | none =>
      { result := .ok ()
        attempts := errs.length + 1
        sleeps := []
        seeks := errs.length }
    | some e => gcsPutAux putOutcome dest (i + 1) remaining (errs ++ [e])

/-- `GCSBlobstore.Put` retry behaviour, entered with loop index 0 and no
collected errors. -/
def gcsPut (putOutcome : Nat → Option String) (dest : String) : PutTrace :=
  gcsPutAux putOutcome dest 0 retryAttempts []

/-- Outcome of one backend delete call. -/
inductive DeleteOutcome where
  | ok
  | notExist
  | failure (msg : String)
deriving Repr, DecidableEq

/-- The per-key error collection of `GCSBlobstore.DeleteRecursive`
(lines 477-499): every listed key gets its own delete attempt; an
`ErrObjectNotExist` outcome is dropped (already absent is success); any
other failure is recorded as `deleting object %s: %w`.  Worker
interleaving is determinized to listing order; the claims only concern
which keys appear. -/
def gcsCollectDeleteErrors (del : String → DeleteOutcome) : List String → List String
  | [] => []
  | n :: ns =>
    match del n with
    | .failure msg => ("deleting object " ++ n ++ ": " ++ msg) :: gcsCollectDeleteErrors del ns
    | _ => gcsCollectDeleteErrors del ns

/-- Result of a recursive delete. -/
inductive RecDelResult where
  | ok
  | listingError (msg : String)
  | aggregate (errs : List String)
deriving Repr, DecidableEq

/-- Trace of a recursive delete: its result and the keys whose deletion
was attempted. -/
structure RecDelTrace where
  result : RecDelResult
  attempted : List String
deriving Repr, DecidableEq

/-- `GCSBlobstore.DeleteRecursive` (lines 458-506): list the prefix
first (a listing failure aborts before any deletion), then attempt every
key's deletion, wait for all workers, and either return success or
`errors.Join` of all collected non-absent failures. -/
def gcsDeleteRecursive (listResult : Except String (List String))
    (del : String → DeleteOutcome) : RecDelTrace :=
  match listResult with
  | .error e => { result := .listingError ("listing objects: " ++ e), attempted := [] }
  | .ok names =>
    let errs := gcsCollectDeleteErrors del names
    { result := if errs.isEmpty then .ok else .aggregate errs
      attempted := names }

end Gcs

/-! ## Azure recursive delete (`src/azurebs/client/storage_client.go`) -/

namespace Az

/-- The per-page deletion pass of `DefaultStorageClient.DeleteRecursive`
(lines 260-272): each blob of the page gets a delete attempt; a failure
that is not a 404 is only logged (`Failed to delete blob %s: %v`), never
returned. -/
def azDeletePage (del : String → Gcs.DeleteOutcome) : List String → List String
  | [] => []
  | b :: bs =>
    match del b with
    | .failure msg => ("Failed to delete blob " ++ b ++ ": " ++ msg) :: azDeletePage del bs
    | _ => azDeletePage del bs

/-- Trace of the Azure recursive delete: result, keys attempted, and the
failures that were logged (and swallowed). -/
structure AzRecDelTrace where
  result : Except String Unit
  attempted : List String
  logged : List String
deriving Repr

/-- Page-consuming loop of `DefaultStorageClient.DeleteRecursive`
(lines 254-275): a page retrieval error is terminal; otherwise every blob
of the page is attempted and individual failures are logged only; after
the last page the function returns nil unconditionally. -/
def azDeleteRecursiveAux (del : String → Gcs.DeleteOutcome) :
    List (Except String (List String)) → List String → List String → AzRecDelTrace
  | [], attempted, logged => { result := .ok (), attempted := attempted, logged := logged }
  | .error e :: _, attempted, logged =>
    { result := .error ("error retrieving page of blobs: " ++ e)
      attempted := attempted
      logged := logged }
  | .ok blobs :: rest, attempted, logged =>
    azDeleteRecursiveAux del rest (attempted ++ blobs) (logged ++ azDeletePage del blobs)

/-- `DefaultStorageClient.DeleteRecursive` over the sequence of listing
pages the backend returns. -/
def azDeleteRecursive (pages : List (Except String (List String)))
    (del : String → Gcs.DeleteOutcome) : AzRecDelTrace :=
  azDeleteRecursiveAux del pages [] []

end Az

/-! ## S3 client (`src/s3/client/aws_s3_blobstore.go`) -/

namespace S3

/-- `oneTB` from line 24 of `src/s3/client/aws_s3_blobstore.go`:
`1000 * 1024 * 1024 * 1024` bytes. -/
def oneTB : Int := 1000 * 1024 * 1024 * 1024

/-- `defaultTransferPartSize` (5 MB). -/
def defaultTransferPartSize : Int := 5 * 1024 * 1024

/-- The parts of `config.S3Cli` that the uploader configuration reads. -/
structure S3Cfg where
  multipartUpload : Bool
  uploadPartSize : Int
deriving Repr, DecidableEq

/-- The `PartSize` the uploader is configured with, from lines 83-94 of
`awsS3Client.Put`: when `MultipartUpload` is false the part size is forced
to `oneTB` to avoid multipart; otherwise the configured positive
`UploadPartSize`, else the default. -/
def effectiveUploadPartSize (cfg : S3Cfg) : Int :=
  if !cfg.multipartUpload then oneTB
  else if cfg.uploadPartSize > 0 then cfg.uploadPartSize
  else defaultTransferPartSize

/-- The AWS transfer manager (vendor SDK, outside src) sends the object as
one single-shot request exactly when its size does not exceed the
configured part size; otherwise it splits it into multipart parts. -/
def singleShot (cfg : S3Cfg) (sourceSize : Int) : Bool :=
  sourceSize ≤ effectiveUploadPartSize cfg

/-- `maxRetries` of the `awsS3Client.Put` retry loop (line 115). -/
def s3MaxRetries : Nat := 3

/-- Outcome of one `uploader.Upload` call. -/
inductive UploadOutcome where
  | ok
  | multiUploadFailure (msg : String)
  | otherFailure (msg : String)
deriving Repr, DecidableEq

/-- Trace of the `awsS3Client.Put` retry loop: outcome, number of
`uploader.Upload` calls made, and the seconds slept between attempts. -/
structure S3PutTrace where
  result : Except String Unit
  attempts : Nat
  sleeps : List Nat
deriving Repr

/-- The retry loop of `awsS3Client.Put` (lines 114-132): attempt the
upload; a non-`MultiUploadFailure` error is terminal (`upload failure:`);
a `MultiUploadFailure` with `retry == maxRetries` is terminal
(`upload retry limit exceeded:` quoting only that last cause); otherwise
`retry++`, sleep `retry` seconds and loop.  `attempt` is the current
value of `retry` (also the 0-based index of the attempt) and `budget` is
`maxRetries - retry`, so `budget = 0` is exactly the Go test
`retry == maxRetries`.  The loop never seeks the source. -/
def s3PutAux (outcome : Nat → UploadOutcome) :
    Nat → Nat → List Nat → S3PutTrace
  | attempt, budget, sleeps =>
    match outcome attempt with
    | .ok => { result := .ok (), attempts := attempt + 1, sleeps := sleeps }
    | .otherFailure msg =>
      { result := .error ("upload failure: " ++ msg), attempts := attempt + 1, sleeps := sleeps }
    | .multiUploadFailure msg =>
      match budget with
      | 0 =>
        { result := .error ("upload retry limit exceeded: " ++ msg)
          attempts := attempt + 1
          sleeps := sleeps }
      | b + 1 => s3PutAux outcome (attempt + 1) b (sleeps ++ [attempt + 1])

/-- `awsS3Client.Put` retry behaviour, entered with `retry = 0`. -/
def s3Put (outcome : Nat → UploadOutcome) : S3PutTrace :=
  s3PutAux outcome 0 s3MaxRetries []

/-- AWS API error codes as the code inspects them (`smithy.APIError`). -/
inductive ApiError where
  | notFound
  | noSuchKey
  | other (code : String)
deriving Repr, DecidableEq

/-- Backend model of the S3 service for delete: removing a present key
succeeds; deleting an absent key answers `NoSuchKey` (S3-compatible
stores may answer this; genuine S3 answers success). -/
def backendDelete (bucket : List String) (key : String) :
    List String × Option ApiError :=
  if key ∈ bucket then (bucket.erase key, none) else (bucket, some .noSuchKey)

/-- The error mapping of `awsS3Client.Delete` (lines 136-157): a nil
error, a `NotFound` or a `NoSuchKey` code are success; anything else is
returned. -/
def s3DeleteMap (e : Option ApiError) : Except String Unit :=
  match e with
  | none => .ok ()
  | some .notFound => .ok ()
  | some .noSuchKey => .ok ()
  | some (.other code) => .error code

/-- `awsS3Client.Delete` against the backend model: a `NoneCredentials`
configuration is rejected up front; otherwise the backend delete response
is pushed through the error mapping.  Returns the new bucket state and
the call result. -/
def s3Delete (credentialsSourceNone : Bool) (bucket : List String) (key : String) :
    List String × Except String Unit :=
  if credentialsSourceNone then
    (bucket, .error "the client operates in read only mode")
  else
    let (b, e) := backendDelete bucket key
    (b, s3DeleteMap e)

/-- The page-consuming loop of `awsS3Client.List` (lines 359-374): while
the paginator has more pages, fetch the next page (a failure is terminal
with `failed to list objects:`), skip empty pages, and append every key
of the page in backend order.  The `len(page.Contents) == 0` `continue`
of the source only skips an empty append and is observationally the
same. -/
def s3ListAux : List (Except String (List String)) → List String → Except String (List String)
  | [], acc => .ok acc
  | .error e :: _, _ => .error ("failed to list objects: " ++ e)
  | .ok keys :: rest, acc => s3ListAux rest (acc ++ keys)

/-- `awsS3Client.List` over the sequence of pages the paginator yields. -/
def s3List (pages : List (Except String (List String))) : Except String (List String) :=
  s3ListAux pages []

end S3

/-! ## Alibaba OSS client (`src/alioss/client/storage_client.go`) -/

namespace Oss

/-- One response of `bucket.ListObjects`: the keys of the page, whether
the listing is truncated, and the opaque continuation marker to pass back
verbatim. -/
structure ListPage where
  objects : List String
  isTruncated : Bool
  nextMarker : String
deriving Repr, DecidableEq

/-- The marker-following loop of `DefaultStorageClient.List`
(lines 290-322 of `src/alioss/client/storage_client.go`): request a page
(a failure is terminal with `error retrieving page of objects:`), append
every key of the page in backend order, and continue with the
`NextMarker` while `IsTruncated`; the first non-truncated page ends the
loop.  `responses` is the sequence of page responses the backend returns
to the successive (marker-forwarding) requests; pages after the first
non-truncated one are never requested. -/
def ossListAux : List (Except String ListPage) → List String → Except String (List String)
  | [], acc => .ok acc
  | .error e :: _, _ => .error ("error retrieving page of objects: " ++ e)
  | .ok page :: rest, acc =>
    if page.isTruncated then ossListAux rest (acc ++ page.objects)
    else .ok (acc ++ page.objects)

/-- `DefaultStorageClient.List` over the backend's page responses. -/
def ossList (responses : List (Except String ListPage)) : Except String (List String) :=
  ossListAux responses []

/-- A 50-key page for the listing-completeness scenario: keys
`k(50*i)` through `k(50*i+49)` in increasing order, with the given
truncation flag. -/
def scenarioPage (i : Nat) (trunc : Bool) : ListPage :=
  { objects := (List.range 50).map (fun n => "k" ++ toString (50 * i + n))
    isTruncated := trunc
    nextMarker := toString i }

end Oss

/-! ## GCS client handle and read-only discipline
(`src/gcs/client/client.go`) -/

namespace Gcs

/-- The `GCSBlobstore` handle: whether the `authenticatedGCS` client is
present (the `publicGCS` anonymous client always is). -/
structure GcsClient where
  hasAuthenticatedClient : Bool
deriving Repr, DecidableEq

/-- `GCSBlobstore.readOnly` (lines 306-308): true exactly when the
authenticated client is absent. -/
def readOnly (c : GcsClient) : Bool := !c.hasAuthenticatedClient

/-- Errors of GCS operations: `ErrInvalidROWriteOperation` or a backend
failure. -/
inductive GcsOpError where
  | invalidROWriteOperation
  | backend (msg : String)
deriving Repr, DecidableEq

/-- A call issued to the GCS service, tagged with the client it goes
through. -/
inductive GcsCall where
  | authenticated (rpc : String)
  | publicClient (rpc : String)
deriving Repr, DecidableEq

/-- Response of an object-attributes (stat) call. -/
inductive GcsAttrsResponse where
  | found
  | objectNotExist
  | otherError (msg : String)
deriving Repr, DecidableEq

/-- Backend model for object deletion: removing a present key succeeds,
an absent key answers `ErrObjectNotExist`. -/
def gcsBackendDelete (bucket : List String) (key : String) :
    List String × Option GcsAttrsResponse :=
  if key ∈ bucket then (bucket.erase key, none) else (bucket, some .objectNotExist)

/-- The error mapping of `GCSBlobstore.Delete` (lines 271-275): a nil
error or `ErrObjectNotExist` is success, anything else is returned. -/
def gcsDeleteMap : Option GcsAttrsResponse → Except GcsOpError Unit
  | none => .ok ()
  | some .objectNotExist => .ok ()
  | some .found => .ok ()
  | some (.otherError m) => .error (.backend m)

/-- `GCSBlobstore.Delete` (lines 264-276) against the backend model: the
read-only guard first, then the delete with the `ErrObjectNotExist`
mapping.  Returns the new bucket state, the result, and the issued
calls. -/
def gcsDelete (c : GcsClient) (bucket : List String) (key : String) :
    List String × Except GcsOpError Unit × List GcsCall :=
  if readOnly c then (bucket, .error .invalidROWriteOperation, [])
  else
    let (b, r) := gcsBackendDelete bucket key
    (b, gcsDeleteMap r, [.authenticated ("delete " ++ key)])

/-- `GCSBlobstore.Put` (lines 203-241): the local source is opened first
(a local file operation, not a backend call), then the read-only guard,
then `validateRemoteConfig` (a bucket-attrs call), then the retry loop
modelled by `gcsPut`. -/
def gcsPutOp (c : GcsClient) (dest : String) (bucketAttrs : Except String Unit)
    (putOutcome : Nat → Option String) : Except GcsOpError Unit × List GcsCall :=
  if readOnly c then (.error .invalidROWriteOperation, [])
  else
    match bucketAttrs with
    | .error e => (.error (.backend e), [.authenticated "bucket attrs"])
    | .ok _ =>
      ((gcsPut putOutcome dest).result.mapError .backend,
        .authenticated "bucket attrs" ::
          (List.range (gcsPut putOutcome dest).attempts).map
            (fun _ => .authenticated ("write " ++ dest)))

/-- `GCSBlobstore.List` (lines 339-369): the read-only guard first (the
source rejects listing in read-only mode even though it is a read), then
the object iterator through the authenticated client. -/
def gcsListOp (c : GcsClient) (pre : String) (iter : Except String (List String)) :
    Except GcsOpError (List String) × List GcsCall :=
  if readOnly c then (.error .invalidROWriteOperation, [])
  else (iter.mapError .backend, [.authenticated ("list " ++ pre)])

/-- `GCSBlobstore.Properties` (lines 388-418): the read-only guard first
(again rejecting a pure read), then the attrs call; `ErrObjectNotExist`
prints an empty JSON object and is success. -/
def gcsPropertiesOp (c : GcsClient) (dest : String) (resp : GcsAttrsResponse) :
    Except GcsOpError Unit × List GcsCall :=
  if readOnly c then (.error .invalidROWriteOperation, [])
  else
    match resp with
    | .found => (.ok (), [.authenticated ("attrs " ++ dest)])
    | .objectNotExist => (.ok (), [.authenticated ("attrs " ++ dest)])
    | .otherError m =>
      (.error (.backend ("getting attributes: " ++ m)), [.authenticated ("attrs " ++ dest)])

/-- `GCSBlobstore.Copy` (lines 371-386): the read-only guard first, then
one server-side copier run through the authenticated client. -/
def gcsCopyOp (c : GcsClient) (srcBlob dstBlob : String) (runResult : Except String Unit) :
    Except GcsOpError Unit × List GcsCall :=
  if readOnly c then (.error .invalidROWriteOperation, [])
  else
    match runResult with
    | .ok _ => (.ok (), [.authenticated ("copy " ++ srcBlob ++ " " ++ dstBlob)])
    | .error e =>
      (.error (.backend ("copying object: " ++ e)),
        [.authenticated ("copy " ++ srcBlob ++ " " ++ dstBlob)])

/-- Response of a bucket-attributes call. -/
inductive GcsBucketAttrsResponse where
  | found
  | bucketNotExist
  | otherError (msg : String)
deriving Repr, DecidableEq

/-- `GCSBlobstore.EnsureStorageExists` (lines 420-456): the read-only
guard first, then bucket attrs; `ErrBucketNotExist` triggers a create. -/
def gcsEnsureStorageExistsOp (c : GcsClient) (attrsResp : GcsBucketAttrsResponse)
    (createResult : Except String Unit) : Except GcsOpError Unit × List GcsCall :=
  if readOnly c then (.error .invalidROWriteOperation, [])
  else
    match attrsResp with
    | .found => (.ok (), [.authenticated "bucket attrs"])
    | .otherError m =>
      (.error (.backend ("checking bucket: " ++ m)), [.authenticated "bucket attrs"])
    | .bucketNotExist =>
      match createResult with
      | .ok _ => (.ok (), [.authenticated "bucket attrs", .authenticated "bucket create"])
      | .error e =>
        (.error (.backend ("creating bucket: " ++ e)),
          [.authenticated "bucket attrs", .authenticated "bucket create"])

/-- `GCSBlobstore.DeleteRecursive` (lines 458-506): the read-only guard
first, then the list-and-delete orchestration modelled by
`gcsDeleteRecursive`. -/
def gcsDeleteRecursiveOp (c : GcsClient) (pre : String)
    (listResult : Except String (List String)) (del : String → DeleteOutcome) :
    Except GcsOpError Unit × List GcsCall :=
  if readOnly c then (.error .invalidROWriteOperation, [])
  else
    let t := gcsDeleteRecursive listResult del
    (match t.result with
      | .ok => .ok ()
      | .listingError m => .error (.backend m)
      | .aggregate errs => .error (.backend (String.intercalate ", " errs)),
      .authenticated ("list " ++ pre) ::
        t.attempted.map (fun k => .authenticated ("delete " ++ k)))

/-- The `exists` helper (lines 294-304): attrs found is `(true, nil)`,
`ErrObjectNotExist` is `(false, nil)`, anything else is an error. -/
def gcsExistsHelper : GcsAttrsResponse → Except String Bool
  | .found => .ok true
  | .objectNotExist => .ok false
  | .otherError m => .error m

/-- `GCSBlobstore.Exists` (lines 279-292): try the public client; on a
check error fall back to the authenticated client when present, else
return the public result. -/
def gcsExistsOp (c : GcsClient) (dest : String) (publicResp authResp : GcsAttrsResponse) :
    Except GcsOpError Bool × List GcsCall :=
  match gcsExistsHelper publicResp with
  | .ok b => (.ok b, [.publicClient ("attrs " ++ dest)])
  | .error e =>
    if c.hasAuthenticatedClient then
      ((gcsExistsHelper authResp).mapError .backend,
        [.publicClient ("attrs " ++ dest), .authenticated ("attrs " ++ dest)])
    else
      (.error (.backend e), [.publicClient ("attrs " ++ dest)])

/-- `GCSBlobstore.Get` (lines 120-150): create the destination file
(local), check access through the public client, fall back to the
authenticated client when present, then download through the client that
passed the check. -/
def gcsGetOp (c : GcsClient) (src : String) (publicAccess : Except String Unit)
    (authAccess : Except String Unit) (download : Except String Unit) :
    Except GcsOpError Unit × List GcsCall :=
  match publicAccess with
  | .ok _ =>
    (download.mapError .backend,
      [.publicClient ("attrs " ++ src), .publicClient ("download " ++ src)])
  | .error e =>
    if c.hasAuthenticatedClient then
      match authAccess with
      | .ok _ =>
        (download.mapError .backend,
          [.publicClient ("attrs " ++ src), .authenticated ("attrs " ++ src),
            .authenticated ("download " ++ src)])
      | .error e2 =>
        (.error (.backend e2),
          [.publicClient ("attrs " ++ src), .authenticated ("attrs " ++ src)])
    else (.error (.backend e), [.publicClient ("attrs " ++ src)])

end Gcs

/-- Go `strings.ToUpper` restricted to ASCII (the only case the sign
actions exercise), written over the character list so it is
kernel-computable. -/
def upperAscii (s : String) : String := String.mk (s.data.map Char.toUpper)

/-- Go `strings.ToLower` restricted to ASCII, over the character list. -/
def lowerAscii (s : String) : String := String.mk (s.data.map Char.toLower)

/-! ## Command dispatcher and exit codes
(`src/storage/strategy.go`, `src/main.go`) -/

namespace Strategy

/-- Command-level error outcome of `Strategy.ExecuteCommand`. -/
inductive CmdError where
  | notExists
  | generic (msg : String)
deriving Repr, DecidableEq

/-- The `exists` branch of `Strategy.ExecuteCommand`
(`src/storage/strategy.go` lines 75-87): a successful check that finds
nothing yields the distinct `NotExistsError`; a check error yields a
generic wrapped failure; finding the object yields success. -/
def existsCommand (existsResult : Except String Bool) : Option CmdError :=
  match existsResult with
  | .ok true => none
  | .ok false => some .notExists
  | .error e => some (.generic ("failed to check exist: " ++ e))

/-- `fatalLog` from `src/main.go` (lines 17-29) as the exit code it
produces: a nil error returns normally (the process then exits 0), a
`NotExistsError` exits 3, any other error goes through `log.Fatalf`,
which exits 1.  (Exit code 2 is produced by the `flag` package on usage
errors, outside this function.) -/
def fatalLogExitCode (e : Option CmdError) : Nat :=
  match e with
  | none => 0
  | some .notExists => 3
  | some (.generic _) => 1

/-- Exit code of the whole `exists <remote>` command. -/
def existsExitCode (existsResult : Except String Bool) : Nat :=
  fatalLogExitCode (existsCommand existsResult)

/-- The action validation of the `sign` branch of
`Strategy.ExecuteCommand` (lines 93-97): the action is lower-cased;
anything other than `get`/`put` is rejected with `action not implemented`
before the storager is contacted; otherwise the lower-cased action is
passed on to the backend `Sign`. -/
def strategySignAction (action : String) : Except String String :=
  let a := lowerAscii action
  if a ≠ "get" ∧ a ≠ "put" then
    .error ("action not implemented: " ++ a ++ ". Available actions are get and put")
  else .ok a

end Strategy

/-! ## Backend `Sign` implementations
(`src/alioss/client/client.go`, `src/azurebs/client/client.go`) -/

namespace Sign

/-- Request issued to the OSS storage client by `AliBlobstore.Sign`. -/
inductive OssSignRequest where
  | signedUrlPut (object : String) (expiredInSec : Int)
  | signedUrlGet (object : String) (expiredInSec : Int)
deriving Repr, DecidableEq

/-- `AliBlobstore.Sign` (`src/alioss/client/client.go` lines 50-61):
upper-case the action, dispatch `PUT`/`GET` to the corresponding
signed-URL backend call, and reject anything else with
`action not implemented` before any backend contact. -/
def aliSign (object : String) (action : String) (expirationSec : Int) :
    Except String OssSignRequest :=
  let a := upperAscii action
  if a = "PUT" then .ok (.signedUrlPut object expirationSec)
  else if a = "GET" then .ok (.signedUrlGet object expirationSec)
  else .error ("action not implemented: " ++ a)

/-- Request issued to the Azure storage client by `AzBlobstore.Sign`. -/
inductive AzSignRequest where
  | signedUrl (requestType : String) (dest : String)
deriving Repr, DecidableEq

/-- `AzBlobstore.Sign` (`src/azurebs/client/client.go` lines 82-90):
upper-case the action, forward `GET`/`PUT` to `SignedUrl`, and reject
anything else with `action not implemented` before any backend
contact. -/
def azSign (dest : String) (action : String) : Except String AzSignRequest :=
  let a := upperAscii action
  if a = "GET" ∨ a = "PUT" then .ok (.signedUrl a dest)
  else .error ("action not implemented: " ++ a)

end Sign

/-! ## Theorems -/

/-- C1: the claim states that an upload whose backend-reported checksum
differs from the locally computed source checksum triggers a best-effort
delete of the destination and a terminal checksum-mismatch error, never a
success.  The shipped `AzBlobstore.Put` of `src/azurebs/client/client.go`
has that verification commented out: with local source MD5 `22` and
backend-reported MD5 `11` (which differ) it returns success and issues no
delete, leaving the mismatching object in place; the other revision of the
same function in the repository (`src/unnamed/part_010`) deletes the
destination and returns the mismatch error naming both checksums, which is
what the claim and the spec describe. -/
theorem azPut_leaves_mismatched_object :
    [(0x22 : Nat)] ≠ [(0x11 : Nat)] ∧
    Az.azPut "dst" (.success [0x11]) = { result := .ok (), deleteCalls := [] } ∧
    Az.azPutVerifying [0x22] "dst" (.success [0x11]) (.ok ()) =
      { result := .error "MD5 mismatch: expected 22, got 11", deleteCalls := ["dst"] } := by
  refine ⟨by decide, rfl, rfl⟩

/-- C7: the `exists` command exits 0 when the object exists and 3 when it
does not; a successful check that finds nothing yields the distinct
`NotExistsError`, while a failing check yields a generic wrapped error
that exits through `log.Fatalf` with code 1 (code 2 being the `flag`
package's usage-error exit), so the not-exists outcome is distinguishable
from the generic-error codes 1 and 2. -/
theorem exists_exit_codes :
    Strategy.existsExitCode (.ok true) = 0 ∧
    Strategy.existsExitCode (.ok false) = 3 ∧
    Strategy.existsCommand (.ok false) = some .notExists ∧
    (∀ e : String, Strategy.existsExitCode (.error e) = 1 ∧
      Strategy.existsCommand (.error e) = some (.generic ("failed to check exist: " ++ e))) ∧
    (3 : Nat) ∉ ({0, 1, 2} : Finset Nat) := by
  exact ⟨rfl, rfl, rfl, fun e => ⟨rfl, rfl⟩, by decide⟩

/-- C8 counterexample: the claim says that with `multipartEnabled = false`
the engine behaves as if `partSize >= sourceSize` regardless of the
object's size.  The code forces `PartSize = oneTB` (a finite constant), so
for an object of `oneTB + 1` bytes the configured part size is strictly
smaller than the source and the transfer manager would still split the
object: the claimed inequality fails at this input. -/
theorem multipart_disabled_split_above_one_tb :
    (⟨false, 0⟩ : S3.S3Cfg).multipartUpload = false ∧
    ¬ (S3.oneTB + 1 ≤ S3.effectiveUploadPartSize ⟨false, 0⟩) ∧
    S3.singleShot ⟨false, 0⟩ (S3.oneTB + 1) = false := by
  refine ⟨rfl, ?_, ?_⟩
  · simp [S3.effectiveUploadPartSize]
  · simp [S3.singleShot, S3.effectiveUploadPartSize]

/-- C8 amended: with `multipartEnabled = false` the uploader part size is
forced to the constant `oneTB` (1000 * 1024^3 bytes), so the upload is a
single-shot request for every object whose size does not exceed one TB;
objects larger than that would still be split. -/
theorem multipart_disabled_forces_one_tb (cfg : S3.S3Cfg) (s : Int)
    (h : cfg.multipartUpload = false) :
    S3.effectiveUploadPartSize cfg = S3.oneTB ∧
    (s ≤ S3.oneTB → S3.singleShot cfg s = true) := by
  constructor
  · simp [S3.effectiveUploadPartSize, h]
  · intro hs
    simp [S3.singleShot, S3.effectiveUploadPartSize, h, hs]

/-- C8 witness: the amended statement evaluated at a concrete read
configuration and a 5-byte object. -/
theorem multipart_disabled_forces_one_tb_witness :
    S3.effectiveUploadPartSize ⟨false, 0⟩ = S3.oneTB ∧
    ((5 : Int) ≤ S3.oneTB → S3.singleShot ⟨false, 0⟩ 5 = true) :=
  multipart_disabled_forces_one_tb ⟨false, 0⟩ 5 rfl

/-- C10: `Sign` is case-insensitive in the action: two spellings with the
same upper-cased form produce the same signed-URL backend request in the
Ali and Azure adapters, any action whose upper-cased form is neither
`GET` nor `PUT` is rejected with `action not implemented` before any
backend request or URL is produced, and the command dispatcher lower-cases
the action and rejects everything but `get`/`put` before the storager is
contacted. -/
theorem sign_case_insensitive :
    (∀ (o a b : String) (e : Int), upperAscii a = upperAscii b →
      Sign.aliSign o a e = Sign.aliSign o b e) ∧
    (∀ (d a b : String), upperAscii a = upperAscii b → Sign.azSign d a = Sign.azSign d b) ∧
    (∀ (o a : String) (e : Int), upperAscii a ≠ "GET" → upperAscii a ≠ "PUT" →
      Sign.aliSign o a e = .error ("action not implemented: " ++ upperAscii a)) ∧
    (∀ (d a : String), upperAscii a ≠ "GET" → upperAscii a ≠ "PUT" →
      Sign.azSign d a = .error ("action not implemented: " ++ upperAscii a)) ∧
    (∀ a : String, lowerAscii a ≠ "get" → lowerAscii a ≠ "put" →
      Strategy.strategySignAction a =
        .error ("action not implemented: " ++ lowerAscii a ++ ". Available actions are get and put")) := by
  refine ⟨?_, ?_, ?_, ?_, ?_⟩
  · intro o a b e h
    simp only [Sign.aliSign, h]
  · intro d a b h
    simp only [Sign.azSign, h]
  · intro o a e hg hp
    simp only [Sign.aliSign, if_neg hp, if_neg hg]
  · intro d a hg hp
    have : ¬ (upperAscii a = "GET" ∨ upperAscii a = "PUT") := by
      intro hor
      rcases hor with h | h
      · exact hg h
      · exact hp h
    simp only [Sign.azSign, if_neg this]
  · intro a hg hp
    have : lowerAscii a ≠ "get" ∧ lowerAscii a ≠ "put" := ⟨hg, hp⟩
    simp only [Strategy.strategySignAction, if_pos this]

/-- Helper: the S3 delete of a key always reports success against the
backend model (present keys are removed, absent keys answer `NoSuchKey`,
which the code maps to success). -/
theorem s3Delete_ok (b : List String) (k : String) :
    (S3.s3Delete false b k).2 = .ok () := by
  by_cases h : k ∈ b <;>
    simp [S3.s3Delete, S3.backendDelete, S3.s3DeleteMap, h]

/-- Helper: the GCS delete of a key always reports success against the
backend model when the client is not read-only (`ErrObjectNotExist` is
mapped to success). -/
theorem gcsDelete_ok (c : Gcs.GcsClient) (b : List String) (k : String)
    (hro : Gcs.readOnly c = false) :
    (Gcs.gcsDelete c b k).2.1 = .ok () := by
  by_cases h : k ∈ b <;>
    simp [Gcs.gcsDelete, Gcs.gcsBackendDelete, Gcs.gcsDeleteMap, hro, h]

/-- C6: delete is idempotent at the public interface: an already-absent
object maps to success, not an error (`NotFound`/`NoSuchKey` for S3,
`ErrObjectNotExist` for GCS), so deleting the same key twice in a row —
the second delete running against the state left by the first — returns
success both times. -/
theorem delete_idempotent (c : Gcs.GcsClient) (bucket : List String) (key : String)
    (hro : Gcs.readOnly c = false) :
    S3.s3DeleteMap (some .notFound) = .ok () ∧
    S3.s3DeleteMap (some .noSuchKey) = .ok () ∧
    Gcs.gcsDeleteMap (some .objectNotExist) = .ok () ∧
    (key ∉ bucket → (S3.backendDelete bucket key).2 = some .noSuchKey) ∧
    (S3.s3Delete false bucket key).2 = .ok () ∧
    (S3.s3Delete false (S3.s3Delete false bucket key).1 key).2 = .ok () ∧
    (Gcs.gcsDelete c bucket key).2.1 = .ok () ∧
    (Gcs.gcsDelete c (Gcs.gcsDelete c bucket key).1 key).2.1 = .ok () := by
  refine ⟨rfl, rfl, rfl, ?_, s3Delete_ok bucket key, s3Delete_ok _ key,
    gcsDelete_ok c bucket key hro, gcsDelete_ok c _ key hro⟩
  intro h
  simp [S3.backendDelete, h]

/-- C6 witness: both deletes of the same key succeed on a concrete
one-object bucket with an authenticated client. -/
theorem delete_idempotent_witness :
    Gcs.readOnly ⟨true⟩ = false ∧
    (S3.s3Delete false ["k"] "k").2 = .ok () ∧
    (S3.s3Delete false (S3.s3Delete false ["k"] "k").1 "k").2 = .ok () ∧
    (Gcs.gcsDelete ⟨true⟩ ["k"] "k").2.1 = .ok () ∧
    (Gcs.gcsDelete ⟨true⟩ (Gcs.gcsDelete ⟨true⟩ ["k"] "k").1 "k").2.1 = .ok () := by
  have h := delete_idempotent ⟨true⟩ ["k"] "k" rfl
  exact ⟨rfl, h.2.2.2.2.1, h.2.2.2.2.2.1, h.2.2.2.2.2.2.1, h.2.2.2.2.2.2.2⟩

/-- Helper: the OSS listing loop over a backend whose responses are a run
of truncated pages followed by one non-truncated page appends every key
of every page, in page order, to the accumulator; responses after the
non-truncated page are never consumed. -/
theorem ossListAux_concat (front : List Oss.ListPage) (lastPage : Oss.ListPage)
    (extra : List (Except String Oss.ListPage)) (acc : List String)
    (h2 : ∀ p ∈ front, p.isTruncated = true) (h3 : lastPage.isTruncated = false) :
    Oss.ossListAux ((front ++ [lastPage]).map .ok ++ extra) acc
      = .ok (acc ++ ((front ++ [lastPage]).map Oss.ListPage.objects).flatten) := by
  induction front generalizing acc with
  | nil => simp [Oss.ossListAux, h3]
  | cons p rest ih =>
    have hp : p.isTruncated = true := h2 p (by simp)
    have h2r : ∀ q ∈ rest, q.isTruncated = true :=
      fun q hq => h2 q (List.mem_cons_of_mem p hq)
    simp only [List.cons_append, List.map_cons, Oss.ossListAux, hp, if_true]
    simpa [List.append_assoc] using ih (acc ++ p.objects) h2r

/-- Helper: the S3 listing loop concatenates all pages. -/
theorem s3ListAux_concat (ps : List (List String)) (acc : List String) :
    S3.s3ListAux (ps.map .ok) acc = .ok (acc ++ ps.flatten) := by
  induction ps generalizing acc with
  | nil => simp [S3.s3ListAux]
  | cons p rest ih => simp [S3.s3ListAux, ih, List.append_assoc]

/-- C5: listing yields the concatenation of all backend pages: the OSS
loop follows the marker until the first page that reports no truncation
(responses past it are never requested), yielding every key in backend
order with no re-sorting or deduplication, and the S3 paginator loop
likewise concatenates its pages in order. -/
theorem list_concatenates_pages (front : List Oss.ListPage) (lastPage : Oss.ListPage)
    (extra : List (Except String Oss.ListPage))
    (h2 : ∀ p ∈ front, p.isTruncated = true) (h3 : lastPage.isTruncated = false) :
    Oss.ossList ((front ++ [lastPage]).map .ok ++ extra)
      = .ok (((front ++ [lastPage]).map Oss.ListPage.objects).flatten) ∧
    (∀ ps : List (List String), S3.s3List (ps.map .ok) = .ok ps.flatten) := by
  constructor
  · simpa [Oss.ossList] using ossListAux_concat front lastPage extra [] h2 h3
  · intro ps
    simpa [S3.s3List] using s3ListAux_concat ps []

/-- C5 witness: a backend returning 3 pages of 50 keys each yields exactly
the 150 keys, in page order. -/
theorem list_concatenates_pages_witness :
    (∀ p ∈ [Oss.scenarioPage 0 true, Oss.scenarioPage 1 true], p.isTruncated = true) ∧
    (Oss.scenarioPage 2 false).isTruncated = false ∧
    Oss.ossList (([Oss.scenarioPage 0 true, Oss.scenarioPage 1 true]
        ++ [Oss.scenarioPage 2 false]).map .ok ++ [])
      = .ok ((([Oss.scenarioPage 0 true, Oss.scenarioPage 1 true]
        ++ [Oss.scenarioPage 2 false]).map Oss.ListPage.objects).flatten) ∧
    ((([Oss.scenarioPage 0 true, Oss.scenarioPage 1 true]
        ++ [Oss.scenarioPage 2 false]).map Oss.ListPage.objects).flatten).length = 150 := by
  refine ⟨by decide, by decide, ?_, ?_⟩
  · exact (list_concatenates_pages [Oss.scenarioPage 0 true, Oss.scenarioPage 1 true]
      (Oss.scenarioPage 2 false) [] (by decide) (by decide)).1
  · simp [Oss.scenarioPage]

/-- Helper: one failing iteration of the GCS put retry loop collects the
cause and moves to the next attempt. -/
theorem gcsPutAux_step_fail (f : Nat → Option String) (dest : String) (i rem : Nat)
    (errs : List String) (e : String) (he : f i = some e) :
    Gcs.gcsPutAux f dest i (rem + 1) errs = Gcs.gcsPutAux f dest (i + 1) rem (errs ++ [e]) := by
  simp [Gcs.gcsPutAux, he]

/-- Helper: a successful iteration of the GCS put retry loop returns at
once, with one more attempt than the failures collected so far and one
seek-reset per collected failure. -/
theorem gcsPutAux_step_ok (f : Nat → Option String) (dest : String) (i rem : Nat)
    (errs : List String) (he : f i = none) :
    Gcs.gcsPutAux f dest i (rem + 1) errs =
      { result := .ok (), attempts := errs.length + 1, sleeps := [], seeks := errs.length } := by
  simp [Gcs.gcsPutAux, he]

/-- C2 counterexample: the claim fixes, for every upload, an attempt
budget of 3 attempts with linear backoff between attempts.  The S3 retry
loop (`retry` from 0 to `maxRetries = 3`) performs 4 upload attempts when
every attempt fails with a `MultiUploadFailure`, exceeding the claimed
budget at this concrete input; and the GCS retry loop never sleeps
between its attempts, so no backoff happens there. -/
theorem s3Put_exceeds_attempt_budget :
    (S3.s3Put (fun _ => .multiUploadFailure "boom")).attempts = 4 ∧
    ¬ ((S3.s3Put (fun _ => .multiUploadFailure "boom")).attempts ≤ 3) ∧
    (S3.s3Put (fun _ => .multiUploadFailure "boom")).sleeps = [1, 2, 3] ∧
    (Gcs.gcsPut (fun _ => some "boom") "dst").sleeps = [] := by
  have h4 : (S3.s3Put (fun _ => .multiUploadFailure "boom")).attempts = 4 := rfl
  exact ⟨h4, by rw [h4]; omega, rfl, rfl⟩

/-- C2 amended: the GCS `Put` resets the source to its original position
after each failed attempt and retries the whole upload up to exactly 3
attempts with no backoff, returning on exhaustion a terminal error naming
the attempt count (3) and all collected causes; the S3 `Put` retries only
`MultiUploadFailure` errors (any other failure is terminal at once),
sleeping `retry * 1` second before each retry, and gives up after 3
retries — 4 attempts in total — with a terminal error quoting the last
cause but not the attempt count. -/
theorem upload_retry_behaviour (dest e0 e1 e2 m : String) (f : Nat → Option String)
    (h0 : f 0 = some e0) (h1 : f 1 = some e1) (h2 : f 2 = some e2) :
    Gcs.gcsPut f dest =
      { result := .error (Gcs.gcsFailMsg dest [e0, e1, e2])
        attempts := 3, sleeps := [], seeks := 3 } ∧
    (∀ g : Nat → Option String, g 0 = none →
      Gcs.gcsPut g dest = { result := .ok (), attempts := 1, sleeps := [], seeks := 0 }) ∧
    S3.s3Put (fun _ => .multiUploadFailure m) =
      { result := .error ("upload retry limit exceeded: " ++ m)
        attempts := 4, sleeps := [1, 2, 3] } ∧
    (∀ g : Nat → S3.UploadOutcome, g 0 = .ok →
      S3.s3Put g = { result := .ok (), attempts := 1, sleeps := [] }) ∧
    (∀ (g : Nat → S3.UploadOutcome) (mm : String), g 0 = .otherFailure mm →
      S3.s3Put g = { result := .error ("upload failure: " ++ mm), attempts := 1, sleeps := [] }) := by
  refine ⟨?_, ?_, rfl, ?_, ?_⟩
  · calc Gcs.gcsPut f dest
        = Gcs.gcsPutAux f dest 1 2 [e0] := gcsPutAux_step_fail f dest 0 2 [] e0 h0
      _ = Gcs.gcsPutAux f dest 2 1 [e0, e1] := gcsPutAux_step_fail f dest 1 1 [e0] e1 h1
      _ = Gcs.gcsPutAux f dest 3 0 [e0, e1, e2] := gcsPutAux_step_fail f dest 2 0 [e0, e1] e2 h2
      _ = { result := .error (Gcs.gcsFailMsg dest [e0, e1, e2])
            attempts := 3, sleeps := [], seeks := 3 } := rfl
  · intro g hg
    exact gcsPutAux_step_ok g dest 0 2 [] hg
  · intro g hg
    show S3.s3PutAux g 0 S3.s3MaxRetries [] = _
    simp only [S3.s3PutAux, hg]
  · intro g mm hg
    show S3.s3PutAux g 0 S3.s3MaxRetries [] = _
    simp only [S3.s3PutAux, hg]

/-- C2 amended witness: the retry behaviour evaluated at a backend that
always fails resumable uploads with `boom`. -/
theorem upload_retry_behaviour_witness :
    ((fun _ => some "boom" : Nat → Option String) 0 = some "boom") ∧
    Gcs.gcsPut (fun _ => some "boom") "dst" =
      { result := .error (Gcs.gcsFailMsg "dst" ["boom", "boom", "boom"])
        attempts := 3, sleeps := [], seeks := 3 } ∧
    S3.s3Put (fun _ => .multiUploadFailure "boom") =
      { result := .error ("upload retry limit exceeded: " ++ "boom")
        attempts := 4, sleeps := [1, 2, 3] } :=
  ⟨rfl,
    (upload_retry_behaviour "dst" "boom" "boom" "boom" "boom"
      (fun _ => some "boom") rfl rfl rfl).1,
    (upload_retry_behaviour "dst" "boom" "boom" "boom" "boom"
      (fun _ => some "boom") rfl rfl rfl).2.2.1⟩

/-- Helper: the GCS per-key error collection keeps exactly the keys whose
delete reported a genuine failure (not `ErrObjectNotExist`), each wrapped
as `deleting object %s: %w`, in listing order. -/
theorem gcsCollectDeleteErrors_eq (del : String → Gcs.DeleteOutcome) (names : List String) :
    Gcs.gcsCollectDeleteErrors del names = names.filterMap (fun n =>
      match del n with
      | .failure msg => some ("deleting object " ++ n ++ ": " ++ msg)
      | _ => none) := by
  induction names with
  | nil => rfl
  | cons n ns ih =>
    cases h : del n <;> simp [Gcs.gcsCollectDeleteErrors, h, ih]

/-- Helper: the Azure per-page delete pass logs exactly the keys whose
delete reported a genuine (non-404) failure, in page order. -/
theorem azDeletePage_eq (del : String → Gcs.DeleteOutcome) (blobs : List String) :
    Az.azDeletePage del blobs = blobs.filterMap (fun b =>
      match del b with
      | .failure msg => some ("Failed to delete blob " ++ b ++ ": " ++ msg)
      | _ => none) := by
  induction blobs with
  | nil => rfl
  | cons b bs ih =>
    cases h : del b <;> simp [Az.azDeletePage, h, ih]

/-- Helper: the Azure recursive delete over a single successful listing
page attempts every blob of the page and returns success, with the
individual failures only logged. -/
theorem azDeleteRecursive_single (del : String → Gcs.DeleteOutcome) (blobs : List String) :
    Az.azDeleteRecursive [.ok blobs] del =
      { result := .ok (), attempted := blobs, logged := Az.azDeletePage del blobs } := by
  simp [Az.azDeleteRecursive, Az.azDeleteRecursiveAux]

/-- C3 counterexample: the claim says every recursive delete returns an
aggregate error naming the keys whose deletion failed.  The Azure
`DeleteRecursive`, given 10 keys of which `k7` always fails, attempts all
10 deletions but returns success, only logging the `k7` failure — no
aggregate error is ever returned by that backend. -/
theorem azDeleteRecursive_swallows_failure :
    (Az.azDeleteRecursive [.ok ["k1", "k2", "k3", "k4", "k5", "k6", "k7", "k8", "k9", "k10"]]
      (fun k => if k = "k7" then .failure "boom" else .ok)).result = .ok () ∧
    (Az.azDeleteRecursive [.ok ["k1", "k2", "k3", "k4", "k5", "k6", "k7", "k8", "k9", "k10"]]
      (fun k => if k = "k7" then .failure "boom" else .ok)).attempted
        = ["k1", "k2", "k3", "k4", "k5", "k6", "k7", "k8", "k9", "k10"] ∧
    (Az.azDeleteRecursive [.ok ["k1", "k2", "k3", "k4", "k5", "k6", "k7", "k8", "k9", "k10"]]
      (fun k => if k = "k7" then .failure "boom" else .ok)).logged
        = ["Failed to delete blob k7: boom"] := by
  exact ⟨rfl, rfl, rfl⟩

/-- C3 amended: a deletion failure on one key stops neither recursive
delete, already-absent keys count as success, and a listing failure
aborts before any deletion; but only the GCS `DeleteRecursive` returns an
aggregate error naming exactly the keys whose deletion failed (with each
cause) — the Azure `DeleteRecursive` attempts every key and then returns
success, merely logging the individual failures.  In the 10-key scenario
where `k7` fails, GCS attempts all 10 keys and aggregates exactly the
`k7` failure. -/
theorem delete_recursive_aggregation (names : List String) (del : String → Gcs.DeleteOutcome) :
    (Gcs.gcsDeleteRecursive (.ok names) del).attempted = names ∧
    (Gcs.gcsDeleteRecursive (.ok names) del).result =
      (if (names.filterMap (fun n =>
            match del n with
            | .failure msg => some ("deleting object " ++ n ++ ": " ++ msg)
            | _ => none)) = [] then .ok
        else .aggregate (names.filterMap (fun n =>
            match del n with
            | .failure msg => some ("deleting object " ++ n ++ ": " ++ msg)
            | _ => none))) ∧
    (∀ e, Gcs.gcsDeleteRecursive (.error e) del =
      { result := .listingError ("listing objects: " ++ e), attempted := [] }) ∧
    (∀ blobs, Az.azDeleteRecursive [.ok blobs] del =
      { result := .ok (), attempted := blobs
        logged := blobs.filterMap (fun b =>
          match del b with
          | .failure msg => some ("Failed to delete blob " ++ b ++ ": " ++ msg)
          | _ => none) }) ∧
    Gcs.gcsDeleteRecursive
        (.ok ["k1", "k2", "k3", "k4", "k5", "k6", "k7", "k8", "k9", "k10"])
        (fun k => if k = "k7" then .failure "boom" else .ok) =
      { result := .aggregate ["deleting object k7: boom"]
        attempted := ["k1", "k2", "k3", "k4", "k5", "k6", "k7", "k8", "k9", "k10"] } := by
  refine ⟨rfl, ?_, fun e => rfl, ?_, rfl⟩
  · have hres : (Gcs.gcsDeleteRecursive (.ok names) del).result
        = (if (Gcs.gcsCollectDeleteErrors del names).isEmpty then Gcs.RecDelResult.ok
           else .aggregate (Gcs.gcsCollectDeleteErrors del names)) := rfl
    rw [hres, gcsCollectDeleteErrors_eq]
    cases names.filterMap (fun n =>
        match del n with
        | .failure msg => some ("deleting object " ++ n ++ ": " ++ msg)
        | _ => none) with
    | nil => simp
    | cons a l => simp
  · intro blobs
    rw [azDeleteRecursive_single, azDeletePage_eq]

/-- C10 witness: the case-insensitivity and rejection facts evaluated at
the concrete actions `GeT`, `get` and `DELETE`. -/
theorem sign_case_insensitive_witness :
    upperAscii "GeT" = upperAscii "get" ∧
    Sign.aliSign "obj" "GeT" 60 = Sign.aliSign "obj" "get" 60 ∧
    Sign.azSign "obj" "pUt" = Sign.azSign "obj" "put" ∧
    upperAscii "DELETE" ≠ "GET" ∧
    Sign.aliSign "obj" "DELETE" 60 = .error ("action not implemented: " ++ upperAscii "DELETE") ∧
    Strategy.strategySignAction "DELETE" =
      .error ("action not implemented: " ++ lowerAscii "DELETE" ++ ". Available actions are get and put") :=
  ⟨by decide,
    sign_case_insensitive.1 "obj" "GeT" "get" 60 (by decide),
    sign_case_insensitive.2.1 "obj" "pUt" "put" (by decide),
    by decide,
    sign_case_insensitive.2.2.1 "obj" "DELETE" 60 (by decide) (by decide),
    sign_case_insensitive.2.2.2.2 "DELETE" (by decide) (by decide)⟩

/-- Helper: the length of the modelled part plan is the integer ceiling
division count. -/
theorem planParts_length (s p : Int) :
    (Planner.planParts s p).length = ((s + p - 1) / p).toNat := by
  simp [Planner.planParts, Planner.numParts]

/-- Helper: the `j`-th part of the plan, explicitly; the source's clamp
`if start + copyPartSize - 1 >= objectSize then objectSize - 1` is the
same byte as `min((j+1) * partSize, objectSize) - 1`. -/
theorem planParts_get (s p : Int) (j : Fin (Planner.planParts s p).length) :
    (Planner.planParts s p).get j =
      { index := j.1 + 1
        startByte := (j.1 : Int) * p
        endByte := min (((j.1 : Int) + 1) * p) s - 1 } := by
  have hj := j.2
  simp only [Planner.planParts, List.length_map, List.length_range] at hj
  simp only [Planner.planParts, List.get_eq_getElem, List.getElem_map, List.getElem_range]
  have hpm : (j.1 : Int) * p + p = ((j.1 : Int) + 1) * p := by ring
  simp only [Planner.Part.mk.injEq, true_and]
  rw [min_def]
  split_ifs <;> omega

/-- C4: the `ChunkPlanner` part computation, hand-written in
`multipartCopy` of the S3 client revision bundled in
`src/s3/client/s3middleware/http_logger.go` (ceiling division at
line 426, per-part ranges at lines 461-467): for all `sourceSize >= 0`
and `partSize > 0`, `plan` succeeds with `ceil(sourceSize/partSize)`
parts computed by integer ceiling division;
the parts are 1-indexed, non-empty, contiguous (`start` of each part is
the previous part's `endByte + 1`), and cover exactly `[0, sourceSize)`
(first part starts at 0, every part ends at or before `sourceSize - 1`,
the last part ends exactly at `sourceSize - 1`, and a zero-size source
yields zero parts); in particular
`plan(550*1024*1024, 100*1024*1024)` yields 6 parts whose last part spans
`[500MiB, 550MiB)`. -/
theorem chunk_planner_plan_correct (s p : Int) (hs : 0 ≤ s) (hp : 0 < p) :
    Planner.plan s p = .ok (Planner.planParts s p) ∧
    ((Planner.planParts s p).length : Int) = (s + p - 1) / p ∧
    (s = 0 → Planner.planParts s p = []) ∧
    (0 < s → (((Planner.planParts s p).length : Int) - 1) * p < s ∧
      s ≤ ((Planner.planParts s p).length : Int) * p) ∧
    (∀ i : Fin (Planner.planParts s p).length,
      ((Planner.planParts s p).get i).index = i.1 + 1 ∧
      ((Planner.planParts s p).get i).startByte = (i.1 : Int) * p ∧
      ((Planner.planParts s p).get i).startByte ≤ ((Planner.planParts s p).get i).endByte ∧
      ((Planner.planParts s p).get i).endByte ≤ s - 1) ∧
    (∀ i : Fin (Planner.planParts s p).length,
      ∀ h : i.1 + 1 < (Planner.planParts s p).length,
      ((Planner.planParts s p).get ⟨i.1 + 1, h⟩).startByte
        = ((Planner.planParts s p).get i).endByte + 1) ∧
    (∀ h : 0 < (Planner.planParts s p).length,
      ((Planner.planParts s p).get ⟨0, h⟩).startByte = 0 ∧
      ((Planner.planParts s p).get ⟨(Planner.planParts s p).length - 1, by omega⟩).endByte
        = s - 1) ∧
    Planner.plan (550 * 1024 * 1024) (100 * 1024 * 1024) = .ok
      [⟨1, 0, 104857599⟩, ⟨2, 104857600, 209715199⟩, ⟨3, 209715200, 314572799⟩,
       ⟨4, 314572800, 419430399⟩, ⟨5, 419430400, 524287999⟩,
       ⟨6, 524288000, 576716799⟩] := by
  have hnum : 0 ≤ s + p - 1 := by linarith
  have hN0 : 0 ≤ (s + p - 1) / p := Int.ediv_nonneg hnum (le_of_lt hp)
  have hNn : ((((s + p - 1) / p).toNat : Int)) = (s + p - 1) / p := Int.toNat_of_nonneg hN0
  have hlen : (Planner.planParts s p).length = ((s + p - 1) / p).toNat := planParts_length s p
  have key1 : ∀ k : Int, k < (s + p - 1) / p → k * p < s := by
    intro k hk
    have h1 : k + 1 ≤ (s + p - 1) / p := by omega
    have h2 : (k + 1) * p ≤ s + p - 1 := (Int.le_ediv_iff_mul_le hp).mp h1
    nlinarith
  have key2 : s ≤ ((s + p - 1) / p) * p := by
    have h1 : (s + p - 1) / p < (s + p - 1) / p + 1 := by omega
    have h2 : s + p - 1 < ((s + p - 1) / p + 1) * p := (Int.ediv_lt_iff_lt_mul hp).mp h1
    nlinarith
  refine ⟨?_, ?_, ?_, ?_, ?_, ?_, ?_, by rfl⟩
  · rw [Planner.plan, if_neg (by omega)]
  · rw [hlen, hNn]
  · intro h
    have hz : (s + p - 1) / p = 0 := by
      rw [h]
      have he : (0 : Int) + p - 1 = p - 1 := by ring
      rw [he]
      exact Int.ediv_eq_zero_of_lt (by omega) (by omega)
    have hl0 : (Planner.planParts s p).length = 0 := by omega
    exact List.length_eq_zero.mp hl0
  · intro hspos
    have hN1 : 1 ≤ (s + p - 1) / p := by
      have := (Int.le_ediv_iff_mul_le hp).mpr (show (1 : Int) * p ≤ s + p - 1 by nlinarith)
      omega
    constructor
    · rw [hlen, hNn]
      exact key1 _ (by omega)
    · rw [hlen, hNn]
      exact key2
  · intro i
    have hi : i.1 < ((s + p - 1) / p).toNat := Nat.lt_of_lt_of_le i.2 (le_of_eq hlen)
    have hiN : (i.1 : Int) < (s + p - 1) / p := by omega
    have hlt : (i.1 : Int) * p < s := key1 _ hiN
    rw [planParts_get s p i]
    refine ⟨rfl, rfl, ?_, ?_⟩
    · show (i.1 : Int) * p ≤ min (((i.1 : Int) + 1) * p) s - 1
      have h1 : (i.1 : Int) * p < ((i.1 : Int) + 1) * p := by nlinarith
      exact Int.le_sub_one_of_lt (lt_min h1 hlt)
    · show min (((i.1 : Int) + 1) * p) s - 1 ≤ s - 1
      exact sub_le_sub_right (min_le_right _ _) 1
  · intro i h
    rw [planParts_get s p ⟨i.1 + 1, h⟩, planParts_get s p i]
    have hlt : i.1 + 1 < ((s + p - 1) / p).toNat := by omega
    have h2 : ((i.1 : Int) + 1) * p < s := by
      have hc : ((i.1 : Int) + 1) < (s + p - 1) / p := by omega
      exact key1 _ hc
    show (((i.1 + 1 : Nat)) : Int) * p = min (((i.1 : Int) + 1) * p) s - 1 + 1
    rw [min_eq_left (le_of_lt h2)]
    push_cast
    ring
  · intro h
    have hn1 : 1 ≤ ((s + p - 1) / p).toNat := by omega
    constructor
    · rw [planParts_get s p ⟨0, h⟩]
      simp
    · rw [planParts_get s p ⟨(Planner.planParts s p).length - 1, by omega⟩]
      show min ((((((Planner.planParts s p).length - 1 : Nat)) : Int) + 1) * p) s - 1 = s - 1
      have hc : (((((Planner.planParts s p).length - 1 : Nat))) : Int) + 1 = (s + p - 1) / p := by
        rw [hlen]
        omega
      rw [hc, min_eq_right key2]

/-- C4 witness: the plan correctness statement evaluated at the 550 MiB
source and 100 MiB part size of the scenario. -/
theorem chunk_planner_plan_correct_witness :
    (0 : Int) ≤ 550 * 1024 * 1024 ∧ (0 : Int) < 100 * 1024 * 1024 ∧
    Planner.plan (550 * 1024 * 1024) (100 * 1024 * 1024)
      = .ok (Planner.planParts (550 * 1024 * 1024) (100 * 1024 * 1024)) ∧
    ((Planner.planParts (550 * 1024 * 1024) (100 * 1024 * 1024)).length : Int)
      = (550 * 1024 * 1024 + 100 * 1024 * 1024 - 1) / (100 * 1024 * 1024) :=
  ⟨by norm_num, by norm_num,
    (chunk_planner_plan_correct (550 * 1024 * 1024) (100 * 1024 * 1024)
      (by norm_num) (by norm_num)).1,
    (chunk_planner_plan_correct (550 * 1024 * 1024) (100 * 1024 * 1024)
      (by norm_num) (by norm_num)).2.1⟩

/-- C9: for a GCS client without write credentials (no authenticated
client, so `readOnly` is true), every one of `Put`, `Delete`,
`DeleteRecursive`, `Copy`, `EnsureStorageExists` — and also the read-only
`List` and `Properties` — returns `ErrInvalidROWriteOperation` without
issuing any backend call, while `Get` and `Exists` still work through the
public client; in particular no operation ever mutates the bucket. -/
theorem gcs_read_only_discipline (c : Gcs.GcsClient) (hro : Gcs.readOnly c = true) :
    (∀ (dest : String) (ba : Except String Unit) (f : Nat → Option String),
      Gcs.gcsPutOp c dest ba f = (.error .invalidROWriteOperation, [])) ∧
    (∀ (bucket : List String) (key : String),
      Gcs.gcsDelete c bucket key = (bucket, .error .invalidROWriteOperation, [])) ∧
    (∀ (pre : String) (lr : Except String (List String)) (del : String → Gcs.DeleteOutcome),
      Gcs.gcsDeleteRecursiveOp c pre lr del = (.error .invalidROWriteOperation, [])) ∧
    (∀ (sb db : String) (run : Except String Unit),
      Gcs.gcsCopyOp c sb db run = (.error .invalidROWriteOperation, [])) ∧
    (∀ (ar : Gcs.GcsBucketAttrsResponse) (cr : Except String Unit),
      Gcs.gcsEnsureStorageExistsOp c ar cr = (.error .invalidROWriteOperation, [])) ∧
    (∀ (pre : String) (iter : Except String (List String)),
      Gcs.gcsListOp c pre iter = (.error .invalidROWriteOperation, [])) ∧
    (∀ (dest : String) (resp : Gcs.GcsAttrsResponse),
      Gcs.gcsPropertiesOp c dest resp = (.error .invalidROWriteOperation, [])) ∧
    (∀ (src : String) (aa : Except String Unit),
      Gcs.gcsGetOp c src (.ok ()) aa (.ok ())
        = (.ok (), [.publicClient ("attrs " ++ src), .publicClient ("download " ++ src)])) ∧
    (∀ (dest : String) (ar : Gcs.GcsAttrsResponse),
      Gcs.gcsExistsOp c dest .found ar = (.ok true, [.publicClient ("attrs " ++ dest)]) ∧
      Gcs.gcsExistsOp c dest .objectNotExist ar
        = (.ok false, [.publicClient ("attrs " ++ dest)])) := by
  refine ⟨?_, ?_, ?_, ?_, ?_, ?_, ?_, ?_, ?_⟩
  · intro dest ba f
    simp [Gcs.gcsPutOp, hro]
  · intro bucket key
    simp [Gcs.gcsDelete, hro]
  · intro pre lr del
    simp [Gcs.gcsDeleteRecursiveOp, hro]
  · intro sb db run
    simp [Gcs.gcsCopyOp, hro]
  · intro ar cr
    simp [Gcs.gcsEnsureStorageExistsOp, hro]
  · intro pre iter
    simp [Gcs.gcsListOp, hro]
  · intro dest resp
    simp [Gcs.gcsPropertiesOp, hro]
  · intro src aa
    simp [Gcs.gcsGetOp, Except.mapError]
  · intro dest ar
    exact ⟨rfl, rfl⟩

/-- C9 witness: the read-only discipline evaluated at the concrete
credential-less client. -/
theorem gcs_read_only_discipline_witness :
    Gcs.readOnly ⟨false⟩ = true ∧
    Gcs.gcsPutOp ⟨false⟩ "o" (.ok ()) (fun _ => none)
      = (.error .invalidROWriteOperation, []) ∧
    Gcs.gcsDelete ⟨false⟩ ["o"] "o" = (["o"], .error .invalidROWriteOperation, []) ∧
    Gcs.gcsListOp ⟨false⟩ "" (.ok ["o"]) = (.error .invalidROWriteOperation, []) ∧
    Gcs.gcsPropertiesOp ⟨false⟩ "o" .found = (.error .invalidROWriteOperation, []) ∧
    Gcs.gcsGetOp ⟨false⟩ "o" (.ok ()) (.ok ()) (.ok ())
      = (.ok (), [.publicClient "attrs o", .publicClient "download o"]) ∧
    Gcs.gcsExistsOp ⟨false⟩ "o" .found .found = (.ok true, [.publicClient "attrs o"]) :=
  ⟨rfl,
    (gcs_read_only_discipline ⟨false⟩ rfl).1 "o" (.ok ()) (fun _ => none),
    (gcs_read_only_discipline ⟨false⟩ rfl).2.1 ["o"] "o",
    (gcs_read_only_discipline ⟨false⟩ rfl).2.2.2.2.2.1 "" (.ok ["o"]),
    (gcs_read_only_discipline ⟨false⟩ rfl).2.2.2.2.2.2.1 "o" .found,
    (gcs_read_only_discipline ⟨false⟩ rfl).2.2.2.2.2.2.2.1 "o" (.ok ()),
    ((gcs_read_only_discipline ⟨false⟩ rfl).2.2.2.2.2.2.2.2 "o" .found).1⟩

end StorageCli
